import Mathlib

/-!
Verification of the acadts admin portal (Next.js + Firestore CRUD app).

This file shallowly embeds the parts of the codebase that the specification
talks about:

* `Validation` — `lib/utils/validation.ts` (`sanitizeInput`).
* `Js` — a small model of JavaScript values and plain objects, used by the
  data-access layer: objects are association lists of string keys and
  `JSVal` values, reads follow JS semantics (an absent key reads as
  `undefined`, a duplicate key in a literal is last-wins), object spread is
  `objSet`/`objMerge`, and `Object.entries(...).filter(([_, v]) =>
  v !== undefined)` followed by `Object.fromEntries` is `objStrip`.
  `JSVal.num` carries integers (no claim under verification involves
  fractional values, so floating point is not embedded); `JSVal.time` is a
  Firestore `Timestamp` carrying its `toMillis()` value; `JSVal.arr` is an
  array of strings; `JSVal.other` abstracts any other (truthy) object such
  as the `serverTimestamp()` sentinel.
* `NewQuestionPage` — the submit handler of `app/admin/questions/new/page.tsx`.
* `QuestionsDb`, `TestsDb`, `TestSeriesDb` — `lib/db/questions.ts`,
  `lib/db/tests.ts`, `lib/db/testSeries.ts`, with the Firestore store made
  explicit as an association list of document ids to objects and each
  operation passing the store through.

Asynchrony is dropped (each handler is a pure function of its inputs), a
thrown JS exception is an `Except.error`, and `console.log` calls are
omitted.
-/

/-- A character the JavaScript `String.prototype.trim` removes.  The model
covers the four common ASCII whitespace characters; the extra Unicode
whitespace code points JS also strips never occur in the claims. -/
def isJsWhitespace (c : Char) : Bool :=
  c == ' ' || c == '\t' || c == '\n' || c == '\r'

/-- `JavaScript String.prototype.trim` on a character list: drop whitespace
from both ends. -/
def jsTrimList (l : List Char) : List Char :=
  ((l.dropWhile isJsWhitespace).reverse.dropWhile isJsWhitespace).reverse

/-- JavaScript `String.prototype.trim`. -/
def jsTrim (s : String) : String :=
  String.mk (jsTrimList s.data)

namespace Validation

/-- The global-regex replacement `.replace(/[<>]/g, "")` from
`lib/utils/validation.ts`: removes every occurrence of the two angle-bracket
characters. -/
def removeAngleBrackets (s : String) : String :=
  String.mk (s.data.filter (fun c => !(c == '<' || c == '>')))

/-- `sanitizeInput` from `lib/utils/validation.ts`:
`input.trim().replace(/[<>]/g, "")`. -/
def sanitizeInput (input : String) : String :=
  removeAngleBrackets (jsTrim input)

end Validation

namespace Js

/-- A JavaScript value, at the granularity the data-access layer needs. -/
inductive JSVal where
  | undefined
  | null
  | str (s : String)
  | num (n : Int)
  | time (millis : Nat)
  | arr (elems : List String)
  | other (tag : String)
deriving DecidableEq

/-- A plain JavaScript object: an association list of keys and values.
Literals with a duplicate key are last-wins, as in JS, via `objGetOpt`. -/
abbrev Obj := List (String × JSVal)

/-- Read a property: the value of the last entry with the given key, if any. -/
def objGetOpt : Obj → String → Option JSVal
  | [], _ => none
  | e :: rest, k =>
    match objGetOpt rest k with
    | some v => some v
    | none => if e.1 = k then some e.2 else none

/-- Read a property, JS-style: an absent key reads as `undefined`. -/
def objGet (o : Obj) (k : String) : JSVal :=
  (objGetOpt o k).getD .undefined

/-- Set one property (the effect of a `k: v` item in an object literal after
a spread): any previous entry for the key is replaced. -/
def objSet (o : Obj) (k : String) (v : JSVal) : Obj :=
  o.filter (fun e => !(e.1 == k)) ++ [(k, v)]

/-- Spread `upd` over `base`: the effect of `{ ...base, ...upd }`. -/
def objMerge (base upd : Obj) : Obj :=
  upd.foldl (fun acc e => objSet acc e.1 e.2) base

/-- `Object.fromEntries(Object.entries(o).filter(([_, v]) => v !== undefined))`:
drop every entry whose value is `undefined`. -/
def objStrip (o : Obj) : Obj :=
  o.filter (fun e => !(e.2 == JSVal.undefined))

/-- The nullish-coalescing operator `v ?? d`. -/
def jsNullish (v d : JSVal) : JSVal :=
  match v with
  | .undefined => d
  | .null => d
  | v => v

/-- JavaScript truthiness of a value (objects, timestamps and arrays are
always truthy). -/
def jsTruthy : JSVal → Bool
  | .undefined => false
  | .null => false
  | .str s => !(s == "")
  | .num n => !(n == 0)
  | .time _ => true
  | .arr _ => true
  | .other _ => true

/-- The short-circuiting `v || d` used for defaulting. -/
def jsOrElse (v d : JSVal) : JSVal :=
  if jsTruthy v then v else d

/-- `.trim()` applied to a property value (only strings occur there). -/
def jsTrimVal : JSVal → JSVal
  | .str s => .str (jsTrim s)
  | v => v

end Js

/-- Decidable equality of `Except` results, used to evaluate the embedded
handlers on concrete inputs. -/
instance {e a : Type} [DecidableEq e] [DecidableEq a] : DecidableEq (Except e a) :=
  fun x y =>
    match x, y with
    | .error u, .error v =>
      if h : u = v then .isTrue (by rw [h]) else .isFalse (fun hh => h (by injection hh))
    | .ok u, .ok v =>
      if h : u = v then .isTrue (by rw [h]) else .isFalse (fun hh => h (by injection hh))
    | .error _, .ok _ => .isFalse (fun hh => Except.noConfusion hh)
    | .ok _, .error _ => .isFalse (fun hh => Except.noConfusion hh)

namespace NewQuestionPage

/-- `QuestionType` from `lib/types/question.ts`. -/
inductive QuestionType where
  | mcq_single
  | mcq_multiple
  | numerical
deriving DecidableEq

/-- `DifficultyLevel` from `lib/types/question.ts`. -/
inductive DifficultyLevel where
  | easy
  | medium
  | hard
deriving DecidableEq

/-- `QuestionInput` from `lib/types/question.ts`, as the new-question form
builds it.  An optional field is `none` when the key is absent from the
object literal (`options`, `correctOptions`, `customId`); `correctAnswer`
and `explanation` keys are always present in the built literal, with `none`
standing for the JS `null`. -/
structure QuestionInput where
  type : QuestionType
  subject : String
  chapter : String
  topic : String
  subtopic : String
  customId : Option String
  tags : List String
  text : String
  options : Option (List String)
  correctOptions : Option (List Nat)
  correctAnswer : Option String
  explanation : Option String
  marks : Int
  penalty : Int
  difficulty : DifficultyLevel
deriving DecidableEq

/-- The state of the new-question form (`app/admin/questions/new/page.tsx`)
at submit time.  `user` is the logged-in uid, if any; `marks` and `penalty`
are the results of `Number(...)` on the two numeric text fields, with `none`
for `NaN` (the claims under verification do not involve fractional values,
so the parse itself is not embedded). -/
structure NewQuestionForm where
  user : Option String
  type : QuestionType
  subjectId : String
  subjectName : String
  chapterId : String
  chapterName : String
  topicId : String
  topicName : String
  subtopic : String
  customId : String
  tagsInput : String
  text : String
  explanation : String
  options : List String
  correctOptions : List Nat
  correctAnswer : String
  marks : Option Int
  penalty : Option Int
  difficulty : DifficultyLevel
deriving DecidableEq

/-- The `trimmedOptions.forEach` loop of `handleSubmit`: walking the trimmed
options with their original index, it records `originalIdx ↦ newIndex` for
each non-empty option and collects the non-empty options in order.
`originalIdx` starts at `a`, the running `newIndex` at `b`. -/
def buildOptionIndexMap : List String → Nat → Nat → List (Nat × Nat) × List String
  | [], _, _ => ([], [])
  | opt :: rest, originalIdx, newIndex =>
    if opt.length > 0 then
      ((originalIdx, newIndex) :: (buildOptionIndexMap rest (originalIdx + 1) (newIndex + 1)).1,
        opt :: (buildOptionIndexMap rest (originalIdx + 1) (newIndex + 1)).2)
    else
      buildOptionIndexMap rest (originalIdx + 1) newIndex

/-- The `originalToNewIndex` map of `handleSubmit` (over already-trimmed
options). -/
def originalToNewIndex (trimmedOptions : List String) : List (Nat × Nat) :=
  (buildOptionIndexMap trimmedOptions 0 0).1

/-- The `nonEmptyOptions` array of `handleSubmit` (over already-trimmed
options). -/
def nonEmptyOptions (trimmedOptions : List String) : List String :=
  (buildOptionIndexMap trimmedOptions 0 0).2

/-- `Map.get` on the original-to-new index map (`Map.has` is `isSome`). -/
def mapLookup (k : Nat) : List (Nat × Nat) → Option Nat
  | [] => none
  | e :: rest => if k = e.1 then some e.2 else mapLookup k rest

/-- The `validIndices` of `handleSubmit`: keep the selected original indices
that survive the filtering and remap each through `originalToNewIndex`
(`filter(has).map(get)` is `filterMap`). -/
def validIndices (trimmedOptions : List String) (correctOptions : List Nat) :
    List Nat :=
  correctOptions.filterMap (fun i => mapLookup i (originalToNewIndex trimmedOptions))

/-- JavaScript `String.prototype.split(",")` on a character list with an
accumulator for the current piece: splitting never drops pieces, so
`"".split(",")` is `[""]` and a trailing comma yields a final empty piece. -/
def splitCommaList : List Char → List Char → List String
  | [], acc => [String.mk acc.reverse]
  | c :: rest, acc =>
    if c = ',' then String.mk acc.reverse :: splitCommaList rest []
    else splitCommaList rest (c :: acc)

/-- The `tags` computation of `handleSubmit`:
`tagsInput.split(",").map(t => t.trim()).filter(t => t.length > 0)`. -/
def questionTags (tagsInput : String) : List String :=
  ((splitCommaList tagsInput.data []).map jsTrim).filter (fun t => t.length > 0)

/-- The `QuestionInput` object literal built at the end of `handleSubmit`.
`options` and `correctOptions` are spread in only when defined
(`...(finalOptions !== undefined && { options: finalOptions })`), so they are
`none` exactly when the key is absent; `customId` is
`customId.trim() || undefined` and `explanation` is
`sanitizedExplanation || null`. -/
def buildQuestionInput (f : NewQuestionForm) (parsedMarks parsedPenalty : Int)
    (finalOptions : Option (List String)) (finalCorrectOptions : Option (List Nat))
    (finalCorrectAnswer : Option String) : QuestionInput where
  type := f.type
  subject := jsTrim (Validation.sanitizeInput f.subjectName)
  chapter := jsTrim (Validation.sanitizeInput f.chapterName)
  topic := jsTrim (Validation.sanitizeInput f.topicName)
  subtopic := jsTrim (Validation.sanitizeInput f.subtopic)
  customId := if jsTrim f.customId = "" then none else some (jsTrim f.customId)
  tags := questionTags f.tagsInput
  text := jsTrim f.text
  options := finalOptions
  correctOptions := finalCorrectOptions
  correctAnswer := finalCorrectAnswer
  explanation := if jsTrim f.explanation = "" then none else some (jsTrim f.explanation)
  marks := parsedMarks
  penalty := parsedPenalty
  difficulty := f.difficulty

/-- The leading validation section of `handleSubmit`: the login check, the
required-field checks on the sanitized classification fields and the
question text, and the `Number(...)` checks on marks and penalty; on
success it yields the parsed marks and penalty. -/
def validateBasics (f : NewQuestionForm) : Except String (Int × Int) :=
  match f.user with
  | none => .error "You must be logged in to create questions."
  | some _ =>
    if f.subjectId = "" ∨ jsTrim (Validation.sanitizeInput f.subjectName) = "" then
      .error "Subject is required."
    else if f.chapterId = "" ∨ jsTrim (Validation.sanitizeInput f.chapterName) = "" then
      .error "Chapter is required."
    else if f.topicId = "" ∨ jsTrim (Validation.sanitizeInput f.topicName) = "" then
      .error "Topic is required."
    else if jsTrim (Validation.sanitizeInput f.subtopic) = "" then
      .error "Subtopic is required."
    else if jsTrim f.text = "" then
      .error "Question text is required."
    else
      match f.marks with
      | none => .error "Marks must be a positive number."
      | some parsedMarks =>
        if parsedMarks ≤ 0 then .error "Marks must be a positive number."
        else
          match f.penalty with
          | none => .error "Penalty must be a number (0 if none)."
          | some parsedPenalty => .ok (parsedMarks, parsedPenalty)

/-- The MCQ section of `handleSubmit`, over the trimmed options: at least
two non-empty options, at least one selected correct option, every selected
correct option non-empty, and the single/multiple arity checks; on success
it yields the filtered options and the remapped correct indices
(`finalOptions` and `finalCorrectOptions`). -/
def validateMcqOptions (type : QuestionType) (trimmedOptions : List String)
    (correctOptions : List Nat) : Except String (List String × List Nat) :=
  if (nonEmptyOptions trimmedOptions).length < 2 then
    .error "At least 2 option text fields must be filled in for MCQ questions."
  else if correctOptions.length = 0 then
    .error "Please select at least one correct option by checking the boxes."
  else if (validIndices trimmedOptions correctOptions).length = 0 then
    .error "You have selected empty options as correct."
  else if (validIndices trimmedOptions correctOptions).length < correctOptions.length then
    .error "Some selected correct options are empty."
  else if type = .mcq_single ∧ (validIndices trimmedOptions correctOptions).length ≠ 1 then
    .error "Single correct MCQ must have exactly one correct option selected."
  else if type = .mcq_multiple ∧ (validIndices trimmedOptions correctOptions).length < 1 then
    .error "Multiple correct MCQ must have at least one correct option selected."
  else
    .ok (nonEmptyOptions trimmedOptions, validIndices trimmedOptions correctOptions)

/-- The submit handler of `app/admin/questions/new/page.tsx`, from the
login check down to the `createQuestion` call: `.error msg` is
`setError(msg); return` (no create call is made), `.ok input` is the
`QuestionInput` passed to `createQuestion`.  Error strings are the leading
sentence of the corresponding UI message (some source messages interpolate
counts into the rest of the text). -/
def handleSubmit (f : NewQuestionForm) : Except String QuestionInput :=
  match validateBasics f with
  | .error msg => .error msg
  | .ok (parsedMarks, parsedPenalty) =>
    match f.type with
    | .mcq_single | .mcq_multiple =>
      match validateMcqOptions f.type (f.options.map jsTrim) f.correctOptions with
      | .error msg => .error msg
      | .ok (finalOptions, finalCorrectOptions) =>
        .ok (buildQuestionInput f parsedMarks parsedPenalty
          (some finalOptions) (some finalCorrectOptions) none)
    | .numerical =>
      if jsTrim f.correctAnswer = "" then
        .error "Correct answer is required for numerical questions."
      else
        .ok (buildQuestionInput f parsedMarks parsedPenalty none none
          (some (jsTrim f.correctAnswer)))

end NewQuestionPage

namespace Firestore

/-- Modelled from the spec: the external document database (Firestore) is a
black box offering collection-scoped create/read/update/delete/query with
filter and sort primitives; code of the repository only calls it through the
SDK.  A collection is an association list of generated document ids to
document objects. -/
abbrev Store := List (String × Js.Obj)

/-- A fresh document id for `addDoc`. -/
def freshId (store : Store) : String :=
  "doc" ++ toString store.length

/-- Modelled from the spec: `addDoc` appends a new document under a fresh
generated id and returns that id. -/
def addDoc (store : Store) (data : Js.Obj) : Store × String :=
  (store ++ [(freshId store, data)], freshId store)

/-- Modelled from the spec: `getDoc` reads the document under an id, if it
exists (`snap.exists()`). -/
def getDocById : Store → String → Option Js.Obj
  | [], _ => none
  | e :: rest, id => if e.1 = id then some e.2 else getDocById rest id

/-- Modelled from the spec: `updateDoc` merges the update object into the
existing document and fails when no document exists under the id. -/
def updateDoc (store : Store) (id : String) (upd : Js.Obj) :
    Except String Store :=
  if store.any (fun e => e.1 == id) then
    .ok (store.map (fun e => if e.1 == id then (e.1, Js.objMerge e.2 upd) else e))
  else
    .error "No document to update"

/-- Modelled from the spec: `deleteDoc` removes the document under an id
(and succeeds even when it is absent). -/
def deleteDoc (store : Store) (id : String) : Store :=
  store.filter (fun e => !(e.1 == id))

/-- `doc.createdAt?.toMillis() || 0`: the timestamp in milliseconds, `0`
when the field is missing or not a timestamp. -/
def createdAtMillis (doc : Js.Obj) : Nat :=
  match Js.objGet doc "createdAt" with
  | .time m => m
  | _ => 0

/-- Modelled from the spec: the query primitive's
`orderBy("createdAt", "desc")` returns the documents sorted by the
`createdAt` field, newest first (a missing field is treated as the epoch). -/
def orderByCreatedAtDesc (entries : List (String × Js.Obj)) :
    List (String × Js.Obj) :=
  List.insertionSort (fun a b => createdAtMillis b.2 ≤ createdAtMillis a.2) entries

end Firestore

namespace QuestionsDb

/-- The `docData` object literal of `createQuestion` in
`lib/db/questions.ts`: strip `undefined`-valued fields from the input, then
`{ ...cleanInput, explanation: cleanInput.explanation ?? null, correctAnswer:
cleanInput.correctAnswer ?? null, createdBy: adminUid, createdAt:
serverTimestamp(), updatedAt: serverTimestamp() }`. -/
def questionDocData (input : Js.Obj) (adminUid : String) : Js.Obj :=
  let cleanInput := Js.objStrip input
  Js.objSet (Js.objSet (Js.objSet (Js.objSet (Js.objSet cleanInput
    "explanation" (Js.jsNullish (Js.objGet cleanInput "explanation") .null))
    "correctAnswer" (Js.jsNullish (Js.objGet cleanInput "correctAnswer") .null))
    "createdBy" (.str adminUid))
    "createdAt" (.other "serverTimestamp"))
    "updatedAt" (.other "serverTimestamp")

/-- `createQuestion` from `lib/db/questions.ts`: presence check on
`adminUid` (`!adminUid || typeof adminUid !== "string" ||
adminUid.trim() === ""`, which for a string amounts to a whitespace-only
check), then `addDoc` with the cleaned document data. -/
def createQuestion (input : Js.Obj) (adminUid : String)
    (store : Firestore.Store) : Firestore.Store × Except String String :=
  if jsTrim adminUid = "" then
    (store, .error "adminUid is required and must be a non-empty string")
  else
    ((Firestore.addDoc store (questionDocData input adminUid)).1,
      .ok (Firestore.addDoc store (questionDocData input adminUid)).2)

/-- The `updateData` object of `updateQuestion`:
`{ ...updates, updatedAt: serverTimestamp() }` — note that, unlike
`createQuestion`, no `undefined`-stripping is applied to `updates`. -/
def updateQuestionData (updates : Js.Obj) : Js.Obj :=
  Js.objSet updates "updatedAt" (.other "serverTimestamp")

/-- `updateQuestion` from `lib/db/questions.ts`: presence check on `id`,
then `updateDoc` with `updateData`. -/
def updateQuestion (id : String) (updates : Js.Obj)
    (store : Firestore.Store) : Firestore.Store × Except String Unit :=
  if jsTrim id = "" then
    (store, .error "Question id is required and must be a non-empty string")
  else
    match Firestore.updateDoc store id (updateQuestionData updates) with
    | .ok s => (s, .ok ())
    | .error e => (store, .error e)

/-- `deleteQuestion` from `lib/db/questions.ts`: presence check on `id`,
then `deleteDoc`. -/
def deleteQuestion (id : String) (store : Firestore.Store) :
    Firestore.Store × Except String Unit :=
  if jsTrim id = "" then
    (store, .error "Question id is required and must be a non-empty string")
  else
    (Firestore.deleteDoc store id, .ok ())

/-- `mapQuestionDoc`: `{ id: snapshot.id, ...data }`. -/
def mapQuestionDoc (id : String) (data : Js.Obj) : Js.Obj :=
  Js.objMerge [("id", .str id)] data

/-- `getQuestionById` from `lib/db/questions.ts`: presence check on `id`;
a missing document is returned as `null` (`.ok none`), not thrown. -/
def getQuestionById (id : String) (store : Firestore.Store) :
    Except String (Option Js.Obj) :=
  if jsTrim id = "" then
    .error "Question id is required and must be a non-empty string"
  else
    match Firestore.getDocById store id with
    | none => .ok none
    | some data => .ok (some (mapQuestionDoc id data))

/-- `ListQuestionsParams` from `lib/db/questions.ts` (all fields optional;
the difficulty and type enums are their string values). -/
structure ListQuestionsParams where
  subject : Option String
  chapter : Option String
  topic : Option String
  subtopic : Option String
  difficulty : Option String
  type : Option String
deriving DecidableEq

/-- JS truthiness of an optional string parameter (`params.subject ? ... `):
an absent parameter and the empty string are both falsy. -/
def optTruthy : Option String → Bool
  | none => false
  | some s => !(s == "")

/-- The `hasFilters` flag of `listQuestions`. -/
def hasFilters (p : ListQuestionsParams) : Bool :=
  optTruthy p.subject || optTruthy p.chapter || optTruthy p.topic ||
    optTruthy p.subtopic || optTruthy p.difficulty || optTruthy p.type

/-- One conditional `where(field, "==", value)` constraint: documents must
match it only when the parameter is truthy. -/
def fieldMatches (doc : Js.Obj) (field : String) (param : Option String) : Bool :=
  if optTruthy param then Js.objGet doc field == Js.JSVal.str (param.getD "")
  else true

/-- The conjunction of the `where` equality constraints `listQuestions`
pushes for its six optional parameters. -/
def matchesParams (p : ListQuestionsParams) (doc : Js.Obj) : Bool :=
  fieldMatches doc "subject" p.subject && fieldMatches doc "chapter" p.chapter &&
    fieldMatches doc "topic" p.topic && fieldMatches doc "subtopic" p.subtopic &&
    fieldMatches doc "difficulty" p.difficulty && fieldMatches doc "type" p.type

/-- The client-side `questions.sort((a, b) => bTime - aTime)` of
`listQuestions` (newest first, by `createdAt?.toMillis() || 0`). -/
def sortQuestionsByCreatedAtDesc (l : List Js.Obj) : List Js.Obj :=
  List.insertionSort
    (fun a b => Firestore.createdAtMillis b ≤ Firestore.createdAtMillis a) l

/-- `listQuestions` from `lib/db/questions.ts`: push a `where` constraint
per truthy parameter; use the server-side `orderBy("createdAt", "desc")`
only when no filter is active (to avoid a composite index), and sort
client-side by timestamp otherwise; map each snapshot through
`mapQuestionDoc`. -/
def listQuestions (p : ListQuestionsParams) (store : Firestore.Store) :
    List Js.Obj :=
  let filtered := store.filter (fun e => matchesParams p e.2)
  let served := if hasFilters p then filtered else Firestore.orderByCreatedAtDesc filtered
  let questions := served.map (fun e => mapQuestionDoc e.1 e.2)
  if hasFilters p then sortQuestionsByCreatedAtDesc questions else questions

end QuestionsDb

namespace TestsDb

/-- `TestQuestion` from `lib/types/test.ts`. -/
structure TestQuestion where
  questionId : String
  marks : Int
  negativeMarks : Int
  order : Int
deriving DecidableEq

/-- `TestInput` from `lib/types/test.ts` (every field required). -/
structure TestInput where
  title : String
  description : String
  durationMinutes : Int
  questions : List TestQuestion
deriving DecidableEq

/-- The `docData` object literal of `createTest` in `lib/db/tests.ts`,
built field by field from the (fully required, already validated) typed
input; the questions array is opaque to the claims under verification. -/
def createTestDocData (input : TestInput) (adminUid : String) : Js.Obj :=
  [("title", .str (jsTrim input.title)),
   ("description", .str (jsTrim input.description)),
   ("durationMinutes", .num input.durationMinutes),
   ("questions", .other "questions-array"),
   ("createdBy", .str adminUid),
   ("createdAt", .other "serverTimestamp"),
   ("updatedAt", .other "serverTimestamp")]

/-- The `if (updateData.f !== undefined) updateData.f = updateData.f.trim()`
steps of `updateTest`. -/
def trimFieldIfPresent (o : Js.Obj) (k : String) : Js.Obj :=
  if Js.objGet o k == Js.JSVal.undefined then o
  else Js.objSet o k (Js.jsTrimVal (Js.objGet o k))

/-- The update object of `updateTest` in `lib/db/tests.ts`:
`{ ...updates, updatedAt: serverTimestamp() }`, then the
`Object.keys(...).forEach(delete-if-undefined)` cleanup, then `.trim()` on
`title` and `description` when present. -/
def updateTestData (updates : Js.Obj) : Js.Obj :=
  trimFieldIfPresent
    (trimFieldIfPresent
      (Js.objStrip (Js.objSet updates "updatedAt" (.other "serverTimestamp")))
      "title")
    "description"

/-- `mapTestDoc`: `{ id: snapshot.id, ...data }`. -/
def mapTestDoc (id : String) (data : Js.Obj) : Js.Obj :=
  Js.objMerge [("id", .str id)] data

/-- `getTestById` from `lib/db/tests.ts`: presence check on `id`; a missing
document is returned as `null` (`.ok none`), not thrown. -/
def getTestById (id : String) (store : Firestore.Store) :
    Except String (Option Js.Obj) :=
  if jsTrim id = "" then
    .error "Test id is required and must be a non-empty string"
  else
    match Firestore.getDocById store id with
    | none => .ok none
    | some data => .ok (some (mapTestDoc id data))

end TestsDb

namespace TestSeriesDb

/-- The `docData` object literal of `createTestSeries` in
`lib/db/testSeries.ts`: strip `undefined`-valued fields, then
`{ ...cleanInput, testIds: cleanInput.testIds || [], createdBy: adminUid,
createdAt: serverTimestamp(), updatedAt: serverTimestamp() }`. -/
def testSeriesDocData (input : Js.Obj) (adminUid : String) : Js.Obj :=
  let cleanInput := Js.objStrip input
  Js.objSet (Js.objSet (Js.objSet (Js.objSet cleanInput
    "testIds" (Js.jsOrElse (Js.objGet cleanInput "testIds") (.arr [])))
    "createdBy" (.str adminUid))
    "createdAt" (.other "serverTimestamp"))
    "updatedAt" (.other "serverTimestamp")

/-- `createTestSeries` from `lib/db/testSeries.ts`: presence check on
`adminUid`, then `addDoc` with the cleaned document data. -/
def createTestSeries (input : Js.Obj) (adminUid : String)
    (store : Firestore.Store) : Firestore.Store × Except String String :=
  if jsTrim adminUid = "" then
    (store, .error "adminUid is required and must be a non-empty string")
  else
    ((Firestore.addDoc store (testSeriesDocData input adminUid)).1,
      .ok (Firestore.addDoc store (testSeriesDocData input adminUid)).2)

/-- The `cleanUpdates`-based update object of `updateTestSeries`:
`{ ...cleanUpdates, updatedAt: serverTimestamp() }` where `cleanUpdates`
strips `undefined`-valued fields from `updates`. -/
def updateTestSeriesData (updates : Js.Obj) : Js.Obj :=
  Js.objSet (Js.objStrip updates) "updatedAt" (.other "serverTimestamp")

end TestSeriesDb

namespace NewTestSeriesPage

/-- The `TestSeriesInput` object literal built by the submit handler of
`app/admin/test-series/new/page.tsx`: `{ title: sanitizedTitle, description:
sanitizedDescription, testIds: Array.from(selectedTestIds) }`. -/
def newTestSeriesInput (title description : String) (testIds : List String) :
    Js.Obj :=
  [("title", .str (jsTrim (Validation.sanitizeInput title))),
   ("description", .str (jsTrim (Validation.sanitizeInput description))),
   ("testIds", .arr testIds)]

end NewTestSeriesPage

namespace DbErrors

/-- A value thrown by a store call: either an `Error` instance carrying its
`message`, or any other value. -/
inductive Thrown where
  | error (message : String)
  | nonError (tag : String)
deriving DecidableEq

/-- `instanceof Error`. -/
def isErrorInstance : Thrown → Bool
  | .error _ => true
  | .nonError _ => false

/-- The `catch` normalization every data-access operation applies before
rethrowing: `error instanceof Error ? error : new Error(fallback)`. -/
def normalizeDbError (fallback : String) : Thrown → Thrown
  | .error m => .error m
  | .nonError _ => .error fallback

/-- The fixed fallback message of `createQuestion`. -/
def createQuestionFallbackMessage : String :=
  "Failed to create question in Firestore"

/-- The fixed fallback message of `listQuestions`. -/
def listQuestionsFallbackMessage : String :=
  "Failed to list questions from Firestore"

end DbErrors

namespace Js

theorem objGetOpt_append (o₁ o₂ : Obj) (k : String) :
    objGetOpt (o₁ ++ o₂) k =
      match objGetOpt o₂ k with
      | some v => some v
      | none => objGetOpt o₁ k := by
  induction o₁ with
  | nil =>
    rw [List.nil_append]
    cases h : objGetOpt o₂ k <;> simp [objGetOpt]
  | cons e rest ih =>
    rw [List.cons_append]
    show (match objGetOpt (rest ++ o₂) k with
          | some v => some v
          | none => if e.1 = k then some e.2 else none) = _
    rw [ih]
    cases h₂ : objGetOpt o₂ k <;> cases h₁ : objGetOpt rest k <;>
      simp [objGetOpt, h₁]

theorem objGetOpt_filter_ne (o : Obj) (k k' : String) (h : k ≠ k') :
    objGetOpt (o.filter (fun e => !(e.1 == k'))) k = objGetOpt o k := by
  induction o with
  | nil => rfl
  | cons e rest ih =>
    rw [List.filter_cons]
    by_cases he : e.1 = k'
    · simp only [he, beq_self_eq_true, Bool.not_true, Bool.false_eq_true,
        if_false, ih]
      have hek : e.1 ≠ k := fun hk => h (hk ▸ he)
      cases hr : objGetOpt rest k <;> simp [objGetOpt, hr, hek]
    · simp only [show (!(e.1 == k')) = true by simp [he], if_true]
      show (match objGetOpt (rest.filter _) k with
            | some v => some v
            | none => if e.1 = k then some e.2 else none) = _
      rw [ih]
      rfl

theorem objGetOpt_filter_self (o : Obj) (k : String) :
    objGetOpt (o.filter (fun e => !(e.1 == k))) k = none := by
  induction o with
  | nil => rfl
  | cons e rest ih =>
    rw [List.filter_cons]
    by_cases he : e.1 = k
    · simpa [he] using ih
    · simp only [show (!(e.1 == k)) = true by simp [he], if_true]
      show (match objGetOpt (rest.filter _) k with
            | some v => some v
            | none => if e.1 = k then some e.2 else none) = none
      rw [ih]
      simp [he]

theorem objGetOpt_objSet (o : Obj) (k' : String) (v : JSVal) (k : String) :
    objGetOpt (objSet o k' v) k = if k = k' then some v else objGetOpt o k := by
  unfold objSet
  rw [objGetOpt_append]
  by_cases hk : k = k'
  · subst hk
    simp [objGetOpt, objGetOpt_filter_self]
  · have hk' : ¬k' = k := fun hh => hk hh.symm
    have : objGetOpt [(k', v)] k = none := by simp [objGetOpt, hk']
    rw [this]
    simp [hk, objGetOpt_filter_ne o k k' hk]

theorem objGetOpt_objMerge (base upd : Obj) (k : String) :
    objGetOpt (objMerge base upd) k =
      match objGetOpt upd k with
      | some v => some v
      | none => objGetOpt base k := by
  induction upd generalizing base with
  | nil => rfl
  | cons e rest ih =>
    show objGetOpt (objMerge (objSet base e.1 e.2) rest) k = _
    rw [ih, objGetOpt_objSet]
    cases hr : objGetOpt rest k
    · by_cases hk : k = e.1
      · subst hk
        simp [objGetOpt, hr]
      · have hk2 : ¬e.1 = k := fun hh => hk hh.symm
        simp [objGetOpt, hr, hk, hk2]
    · simp [objGetOpt, hr]

theorem mem_objSet {o : Obj} {k : String} {v : JSVal} {e : String × JSVal}
    (h : e ∈ objSet o k v) : e ∈ o ∨ e = (k, v) := by
  rcases List.mem_append.mp h with h' | h'
  · exact Or.inl (List.mem_of_mem_filter h')
  · exact Or.inr (List.mem_singleton.mp h')

theorem objStrip_ne_undefined {o : Obj} {e : String × JSVal}
    (h : e ∈ objStrip o) : e.2 ≠ JSVal.undefined := by
  have := List.of_mem_filter h
  simpa using this

theorem jsNullish_ne_undefined (v d : JSVal) (hd : d ≠ JSVal.undefined) :
    jsNullish v d ≠ JSVal.undefined := by
  cases v <;> simp_all [jsNullish]

theorem jsOrElse_ne_undefined (v d : JSVal) (hd : d ≠ JSVal.undefined) :
    jsOrElse v d ≠ JSVal.undefined := by
  unfold jsOrElse
  split
  · cases v <;> simp_all [jsTruthy]
  · exact hd

theorem jsTrimVal_ne_undefined (v : JSVal) (hv : v ≠ JSVal.undefined) :
    jsTrimVal v ≠ JSVal.undefined := by
  cases v <;> simp_all [jsTrimVal]

end Js

namespace NewQuestionPage

theorem mapLookup_mem {k : Nat} :
    ∀ {m : List (Nat × Nat)} {v : Nat}, mapLookup k m = some v → (k, v) ∈ m := by
  intro m
  induction m with
  | nil => intro v h; simp [mapLookup] at h
  | cons e rest ih =>
    intro v h
    rw [mapLookup] at h
    by_cases hk : k = e.1
    · rw [if_pos hk] at h
      exact List.mem_cons.mpr (Or.inl (by cases e; cases h; simpa using hk))
    · rw [if_neg hk] at h
      exact List.mem_cons.mpr (Or.inr (ih h))

/-- Every entry `(i, j)` of the index map built by the `forEach` loop (with
`originalIdx` starting at `a` and `newIndex` at `b`) satisfies `a ≤ i`,
`b ≤ j`, and the option text at position `i - a` of the walked list equals
the text at position `j - b` of the collected non-empty list. -/
theorem buildOptionIndexMap_spec :
    ∀ (opts : List String) (a b i j : Nat),
      (i, j) ∈ (buildOptionIndexMap opts a b).1 →
      a ≤ i ∧ b ≤ j ∧
        ∃ t, opts.get? (i - a) = some t ∧
          (buildOptionIndexMap opts a b).2.get? (j - b) = some t := by
  intro opts
  induction opts with
  | nil => intro a b i j h; simp [buildOptionIndexMap] at h
  | cons opt rest ih =>
    intro a b i j h
    by_cases hlen : opt.length > 0
    · rw [buildOptionIndexMap, if_pos hlen] at h
      rw [buildOptionIndexMap, if_pos hlen]
      rcases List.mem_cons.mp h with heq | hmem
      · obtain ⟨hi, hj⟩ := Prod.mk.injEq i j a b ▸ heq
        subst hi; subst hj
        exact ⟨Nat.le_refl _, Nat.le_refl _, opt, by simp, by simp⟩
      · obtain ⟨h1, h2, t, hg, hf⟩ := ih (a + 1) (b + 1) i j hmem
        refine ⟨by omega, by omega, t, ?_, ?_⟩
        · have hia : i - a = (i - (a + 1)) + 1 := by omega
          rw [hia, List.get?_cons_succ]
          exact hg
        · have hjb : j - b = (j - (b + 1)) + 1 := by omega
          rw [hjb, List.get?_cons_succ]
          exact hf
    · rw [buildOptionIndexMap, if_neg hlen] at h
      rw [buildOptionIndexMap, if_neg hlen]
      obtain ⟨h1, h2, t, hg, hf⟩ := ih (a + 1) b i j h
      refine ⟨by omega, h2, t, ?_, hf⟩
      have hia : i - a = (i - (a + 1)) + 1 := by omega
      rw [hia, List.get?_cons_succ]
      exact hg

end NewQuestionPage

/-- C1: in the new-question submit handler, every remapped correct-option
index produced by `validIndices` is in bounds for the submitted (filtered)
options array, and comes from a selected original index that pointed at the
same option text in the (trimmed) unfiltered options list. -/
theorem mcq_option_index_remap_correct (options : List String)
    (correctOptions : List Nat) :
    ∀ j ∈ NewQuestionPage.validIndices (options.map jsTrim) correctOptions,
      j < (NewQuestionPage.nonEmptyOptions (options.map jsTrim)).length ∧
      ∃ i ∈ correctOptions,
        NewQuestionPage.mapLookup i
            (NewQuestionPage.originalToNewIndex (options.map jsTrim)) = some j ∧
        ∃ t, (options.map jsTrim).get? i = some t ∧
          (NewQuestionPage.nonEmptyOptions (options.map jsTrim)).get? j = some t := by
  intro j hj
  obtain ⟨i, hi, hlook⟩ := List.mem_filterMap.mp hj
  have hmem := NewQuestionPage.mapLookup_mem hlook
  obtain ⟨-, -, t, hg, hf⟩ :=
    NewQuestionPage.buildOptionIndexMap_spec (options.map jsTrim) 0 0 i j hmem
  rw [Nat.sub_zero] at hg hf
  refine ⟨?_, i, hi, hlook, t, hg, hf⟩
  exact (List.get?_eq_some.mp hf).1

/-- Witness for C1 at the concrete form data
`options = ["", " A ", "B", ""]`, `correctOptions = [1, 2]` (so the
filtered options are `["A", "B"]` and the remapped indices `[0, 1]`),
instantiated at the surviving remapped index `0`. -/
theorem mcq_option_index_remap_correct_witness :
    0 < (NewQuestionPage.nonEmptyOptions (["", " A ", "B", ""].map jsTrim)).length ∧
    ∃ i ∈ [1, 2],
      NewQuestionPage.mapLookup i
          (NewQuestionPage.originalToNewIndex (["", " A ", "B", ""].map jsTrim)) = some 0 ∧
      ∃ t, (["", " A ", "B", ""].map jsTrim).get? i = some t ∧
        (NewQuestionPage.nonEmptyOptions (["", " A ", "B", ""].map jsTrim)).get? 0 = some t :=
  mcq_option_index_remap_correct ["", " A ", "B", ""] [1, 2] 0 (by decide)


namespace Js

theorem objSet_preserves_no_undefined {o : Obj} {k : String} {v : JSVal}
    (ho : ∀ e ∈ o, e.2 ≠ JSVal.undefined) (hv : v ≠ JSVal.undefined) :
    ∀ e ∈ objSet o k v, e.2 ≠ JSVal.undefined := by
  intro e he
  rcases mem_objSet he with h | h
  · exact ho e h
  · rw [h]
    exact hv

theorem objStrip_no_undefined (o : Obj) :
    ∀ e ∈ objStrip o, e.2 ≠ JSVal.undefined :=
  fun _ he => objStrip_ne_undefined he

end Js

/-- C7: dangling references are handled as not-found rather than errors —
for every non-empty id under which no document exists, `getQuestionById`
and `getTestById` return `null` (`.ok none`); no error is thrown. -/
theorem dangling_reference_returns_null (id : String)
    (qstore tstore : Firestore.Store) (hid : jsTrim id ≠ "")
    (hq : Firestore.getDocById qstore id = none)
    (ht : Firestore.getDocById tstore id = none) :
    QuestionsDb.getQuestionById id qstore = .ok none ∧
      TestsDb.getTestById id tstore = .ok none := by
  constructor
  · simp [QuestionsDb.getQuestionById, hid, hq]
  · simp [TestsDb.getTestById, hid, ht]

/-- Witness for C7: the id `"missing-id"` in empty question and test
collections. -/
theorem dangling_reference_returns_null_witness :
    QuestionsDb.getQuestionById "missing-id" [] = .ok none ∧
      TestsDb.getTestById "missing-id" [] = .ok none :=
  dangling_reference_returns_null "missing-id" [] [] (by decide) rfl rfl

/-- C8: the questions data-access operations check their `id` (or
`adminUid`) for presence before touching the store — on an empty or
whitespace-only value each operation throws its fixed message and returns
the store unchanged, since no store primitive has been called yet. -/
theorem blank_id_rejected_before_store_call (s : String) (hs : jsTrim s = "")
    (input updates : Js.Obj) (store : Firestore.Store) :
    QuestionsDb.createQuestion input s store =
      (store, .error "adminUid is required and must be a non-empty string") ∧
    QuestionsDb.updateQuestion s updates store =
      (store, .error "Question id is required and must be a non-empty string") ∧
    QuestionsDb.deleteQuestion s store =
      (store, .error "Question id is required and must be a non-empty string") ∧
    QuestionsDb.getQuestionById s store =
      .error "Question id is required and must be a non-empty string" := by
  refine ⟨?_, ?_, ?_, ?_⟩ <;>
    simp [QuestionsDb.createQuestion, QuestionsDb.updateQuestion,
      QuestionsDb.deleteQuestion, QuestionsDb.getQuestionById, hs]

/-- Witness for C8: the whitespace-only string `" "` against a one-document
store. -/
theorem blank_id_rejected_before_store_call_witness :
    QuestionsDb.createQuestion [] " " [("q1", [])] =
      ([("q1", [])], .error "adminUid is required and must be a non-empty string") ∧
    QuestionsDb.updateQuestion " " [] [("q1", [])] =
      ([("q1", [])], .error "Question id is required and must be a non-empty string") ∧
    QuestionsDb.deleteQuestion " " [("q1", [])] =
      ([("q1", [])], .error "Question id is required and must be a non-empty string") ∧
    QuestionsDb.getQuestionById " " [("q1", [])] =
      .error "Question id is required and must be a non-empty string" :=
  blank_id_rejected_before_store_call " " (by decide) [] [] [("q1", [])]

/-- C9 counterexample: an `Error` instance whose `message` is the empty
string is rethrown unchanged by the catch-site normalization, so the caller
receives an `Error` whose message is NOT a non-empty string — refuting
"callers always receive an Error with a non-empty message string". -/
theorem store_failures_normalized_counterexample :
    DbErrors.normalizeDbError DbErrors.createQuestionFallbackMessage
      (DbErrors.Thrown.error "") = DbErrors.Thrown.error "" := rfl

/-- C9 (amended): every value thrown inside a data-access operation is
rethrown as an `Error` instance; a value that is not an `Error` is wrapped
in an `Error` carrying the operation's fixed non-empty message, while an
`Error` instance is rethrown unchanged (so its message may be empty). -/
theorem store_failures_normalized (t : DbErrors.Thrown) :
    DbErrors.isErrorInstance
        (DbErrors.normalizeDbError DbErrors.createQuestionFallbackMessage t) = true ∧
    DbErrors.isErrorInstance
        (DbErrors.normalizeDbError DbErrors.listQuestionsFallbackMessage t) = true ∧
    (DbErrors.isErrorInstance t = false →
      DbErrors.normalizeDbError DbErrors.createQuestionFallbackMessage t =
        .error DbErrors.createQuestionFallbackMessage ∧
      DbErrors.normalizeDbError DbErrors.listQuestionsFallbackMessage t =
        .error DbErrors.listQuestionsFallbackMessage) ∧
    DbErrors.createQuestionFallbackMessage ≠ "" ∧
    DbErrors.listQuestionsFallbackMessage ≠ "" := by
  cases t <;>
    simp [DbErrors.isErrorInstance, DbErrors.normalizeDbError,
      DbErrors.createQuestionFallbackMessage, DbErrors.listQuestionsFallbackMessage]

/-- Witness for C9 (amended): a thrown non-`Error` value (tagged "quota")
is wrapped with the fixed fallback messages. -/
theorem store_failures_normalized_witness :
    DbErrors.normalizeDbError DbErrors.createQuestionFallbackMessage
        (DbErrors.Thrown.nonError "quota") =
      DbErrors.Thrown.error DbErrors.createQuestionFallbackMessage ∧
    DbErrors.normalizeDbError DbErrors.listQuestionsFallbackMessage
        (DbErrors.Thrown.nonError "quota") =
      DbErrors.Thrown.error DbErrors.listQuestionsFallbackMessage :=
  (store_failures_normalized (DbErrors.Thrown.nonError "quota")).2.2.1 rfl

/-- C3 counterexample: `updateQuestion` does NOT strip `undefined`-valued
fields — for the update object `{ customId: undefined }`, the object it
passes to the store's `updateDoc` still contains the `undefined`-valued
`customId` field. -/
theorem updateQuestion_passes_undefined_counterexample :
    ("customId", Js.JSVal.undefined) ∈
      QuestionsDb.updateQuestionData [("customId", Js.JSVal.undefined)] := by decide

theorem trimFieldIfPresent_no_undefined (o : Js.Obj) (k : String)
    (ho : ∀ e ∈ o, e.2 ≠ Js.JSVal.undefined) :
    ∀ e ∈ TestsDb.trimFieldIfPresent o k, e.2 ≠ Js.JSVal.undefined := by
  unfold TestsDb.trimFieldIfPresent
  split
  · exact ho
  · apply Js.objSet_preserves_no_undefined ho
    apply Js.jsTrimVal_ne_undefined
    simp_all

/-- C3 (amended): the create operations and the test/test-series update
operations pass no `undefined`-valued field to the store — `createQuestion`,
`createTestSeries` and `updateTestSeries` strip `undefined`-valued entries
before building their payload, and `updateTest` deletes `undefined`-valued
keys from its payload; `updateQuestion` alone does not strip, and passes an
explicitly-`undefined` field of its updates object through to the store
(see the counterexample). -/
theorem create_update_payloads_strip_undefined (input updates : Js.Obj)
    (tinput : TestsDb.TestInput) (adminUid : String) :
    (∀ e ∈ QuestionsDb.questionDocData input adminUid, e.2 ≠ Js.JSVal.undefined) ∧
    (∀ e ∈ TestSeriesDb.testSeriesDocData input adminUid, e.2 ≠ Js.JSVal.undefined) ∧
    (∀ e ∈ TestSeriesDb.updateTestSeriesData updates, e.2 ≠ Js.JSVal.undefined) ∧
    (∀ e ∈ TestsDb.updateTestData updates, e.2 ≠ Js.JSVal.undefined) ∧
    (∀ e ∈ TestsDb.createTestDocData tinput adminUid, e.2 ≠ Js.JSVal.undefined) := by
  refine ⟨?_, ?_, ?_, ?_, ?_⟩
  · unfold QuestionsDb.questionDocData
    apply Js.objSet_preserves_no_undefined
    apply Js.objSet_preserves_no_undefined
    apply Js.objSet_preserves_no_undefined
    apply Js.objSet_preserves_no_undefined
    apply Js.objSet_preserves_no_undefined
    · exact Js.objStrip_no_undefined input
    · exact Js.jsNullish_ne_undefined _ _ (by simp)
    · exact Js.jsNullish_ne_undefined _ _ (by simp)
    · simp
    · simp
    · simp
  · unfold TestSeriesDb.testSeriesDocData
    apply Js.objSet_preserves_no_undefined
    apply Js.objSet_preserves_no_undefined
    apply Js.objSet_preserves_no_undefined
    apply Js.objSet_preserves_no_undefined
    · exact Js.objStrip_no_undefined input
    · exact Js.jsOrElse_ne_undefined _ _ (by simp)
    · simp
    · simp
    · simp
  · unfold TestSeriesDb.updateTestSeriesData
    apply Js.objSet_preserves_no_undefined
    · exact Js.objStrip_no_undefined updates
    · simp
  · unfold TestsDb.updateTestData
    apply trimFieldIfPresent_no_undefined
    apply trimFieldIfPresent_no_undefined
    exact Js.objStrip_no_undefined _
  · intro e he
    simp only [TestsDb.createTestDocData, List.mem_cons, List.not_mem_nil,
      or_false] at he
    rcases he with h | h | h | h | h | h | h <;> subst h <;> simp

/-- Witness for C3 (amended): the `updateTestSeries` payload for the update
object `{ title: undefined }` keeps only the non-`undefined` `updatedAt`
field, whose value is not `undefined`. -/
theorem create_update_payloads_strip_undefined_witness :
    (("updatedAt", Js.JSVal.other "serverTimestamp") : String × Js.JSVal).2 ≠
      Js.JSVal.undefined :=
  (create_update_payloads_strip_undefined [("customId", Js.JSVal.undefined)]
      [("title", Js.JSVal.undefined)] ⟨"T", "D", 30, []⟩ "admin1").2.2.1
    ("updatedAt", Js.JSVal.other "serverTimestamp") (by decide)

/-- C4 counterexample: the test series document created from the
new-test-series form (title "Physics Mega Pack", description "All physics
tests", two selected tests) contains NO `price` field — refuting "every test
series document created by the application includes title, description,
price, and a list of test references". -/
theorem test_series_created_without_price_counterexample :
    Js.objGetOpt
        (TestSeriesDb.testSeriesDocData
          (NewTestSeriesPage.newTestSeriesInput "Physics Mega Pack"
            "All physics tests" ["t1", "t2"])
          "admin1")
        "price" = none := by decide

/-- C4 (amended): the `TestSeries` record kind carries no price field —
every test series document created by the application includes title,
description and the list of test references (`testIds`), plus the audit
fields, but no `price` (a price is only written later by the edit page's
update, outside the declared record type). -/
theorem test_series_document_fields (title description : String)
    (testIds : List String) (adminUid : String) :
    Js.objGetOpt
        (TestSeriesDb.testSeriesDocData
          (NewTestSeriesPage.newTestSeriesInput title description testIds) adminUid)
        "price" = none ∧
    Js.objGet
        (TestSeriesDb.testSeriesDocData
          (NewTestSeriesPage.newTestSeriesInput title description testIds) adminUid)
        "title" = .str (jsTrim (Validation.sanitizeInput title)) ∧
    Js.objGet
        (TestSeriesDb.testSeriesDocData
          (NewTestSeriesPage.newTestSeriesInput title description testIds) adminUid)
        "description" = .str (jsTrim (Validation.sanitizeInput description)) ∧
    Js.objGet
        (TestSeriesDb.testSeriesDocData
          (NewTestSeriesPage.newTestSeriesInput title description testIds) adminUid)
        "testIds" = .arr testIds ∧
    Js.objGet
        (TestSeriesDb.testSeriesDocData
          (NewTestSeriesPage.newTestSeriesInput title description testIds) adminUid)
        "createdBy" = .str adminUid := by
  unfold TestSeriesDb.testSeriesDocData NewTestSeriesPage.newTestSeriesInput
  simp [Js.objGet, Js.objGetOpt_objSet, Js.objStrip, Js.objGetOpt,
    Js.jsOrElse, Js.jsTruthy]

theorem createdAtMillis_mapQuestionDoc (id : String) (data : Js.Obj) :
    Firestore.createdAtMillis (QuestionsDb.mapQuestionDoc id data) =
      Firestore.createdAtMillis data := by
  unfold Firestore.createdAtMillis QuestionsDb.mapQuestionDoc Js.objGet
  rw [Js.objGetOpt_objMerge]
  cases h : Js.objGetOpt data "createdAt"
  · simp [Js.objGetOpt]
  · simp

theorem pairwise_sortQuestionsByCreatedAtDesc (l : List Js.Obj) :
    List.Pairwise
      (fun a b => Firestore.createdAtMillis b ≤ Firestore.createdAtMillis a)
      (QuestionsDb.sortQuestionsByCreatedAtDesc l) := by
  unfold QuestionsDb.sortQuestionsByCreatedAtDesc
  haveI : IsTotal Js.Obj
      (fun a b => Firestore.createdAtMillis b ≤ Firestore.createdAtMillis a) :=
    ⟨fun _ _ => Nat.le_total _ _⟩
  haveI : IsTrans Js.Obj
      (fun a b => Firestore.createdAtMillis b ≤ Firestore.createdAtMillis a) :=
    ⟨fun _ _ _ hab hbc => Nat.le_trans hbc hab⟩
  exact List.sorted_insertionSort _ _

theorem pairwise_orderByCreatedAtDesc (l : List (String × Js.Obj)) :
    List.Pairwise
      (fun a b => Firestore.createdAtMillis b.2 ≤ Firestore.createdAtMillis a.2)
      (Firestore.orderByCreatedAtDesc l) := by
  unfold Firestore.orderByCreatedAtDesc
  haveI : IsTotal (String × Js.Obj)
      (fun a b => Firestore.createdAtMillis b.2 ≤ Firestore.createdAtMillis a.2) :=
    ⟨fun _ _ => Nat.le_total _ _⟩
  haveI : IsTrans (String × Js.Obj)
      (fun a b => Firestore.createdAtMillis b.2 ≤ Firestore.createdAtMillis a.2) :=
    ⟨fun _ _ _ hab hbc => Nat.le_trans hbc hab⟩
  exact List.sorted_insertionSort _ _

/-- C2: `listQuestions` uses the server-side `orderBy("createdAt", "desc")`
only when no filter parameter is active, sorts the fetched results
client-side by `createdAt` timestamp (newest first) when any equality
filter is set, and in both cases the returned list is ordered by
`createdAt` in descending order. -/
theorem listQuestions_ordering (p : QuestionsDb.ListQuestionsParams)
    (store : Firestore.Store) :
    (QuestionsDb.hasFilters p = true →
      QuestionsDb.listQuestions p store =
        QuestionsDb.sortQuestionsByCreatedAtDesc
          ((store.filter (fun e => QuestionsDb.matchesParams p e.2)).map
            (fun e => QuestionsDb.mapQuestionDoc e.1 e.2))) ∧
    (QuestionsDb.hasFilters p = false →
      QuestionsDb.listQuestions p store =
        (Firestore.orderByCreatedAtDesc
            (store.filter (fun e => QuestionsDb.matchesParams p e.2))).map
          (fun e => QuestionsDb.mapQuestionDoc e.1 e.2)) ∧
    List.Pairwise
      (fun a b => Firestore.createdAtMillis b ≤ Firestore.createdAtMillis a)
      (QuestionsDb.listQuestions p store) := by
  refine ⟨?_, ?_, ?_⟩
  · intro h
    simp [QuestionsDb.listQuestions, h]
  · intro h
    simp [QuestionsDb.listQuestions, h]
  · by_cases h : QuestionsDb.hasFilters p
    · simp only [QuestionsDb.listQuestions, h, if_true]
      exact pairwise_sortQuestionsByCreatedAtDesc _
    · simp only [QuestionsDb.listQuestions, h, Bool.false_eq_true, if_false]
      rw [List.pairwise_map]
      refine (pairwise_orderByCreatedAtDesc
        (store.filter (fun e => QuestionsDb.matchesParams p e.2))).imp ?_
      intro a b hab
      simpa [createdAtMillis_mapQuestionDoc] using hab

/-- Witness for C2: a subject filter is active and two matching documents
are stored oldest-first; the filtered path returns them client-sorted,
newest first. -/
theorem listQuestions_ordering_witness :
    QuestionsDb.listQuestions
        ⟨some "Physics", none, none, none, none, none⟩
        [("a", [("subject", Js.JSVal.str "Physics"), ("createdAt", Js.JSVal.time 100)]),
         ("b", [("subject", Js.JSVal.str "Physics"), ("createdAt", Js.JSVal.time 200)])] =
      QuestionsDb.sortQuestionsByCreatedAtDesc
        (([("a", [("subject", Js.JSVal.str "Physics"), ("createdAt", Js.JSVal.time 100)]),
           ("b", [("subject", Js.JSVal.str "Physics"), ("createdAt", Js.JSVal.time 200)])].filter
            (fun e => QuestionsDb.matchesParams
              ⟨some "Physics", none, none, none, none, none⟩ e.2)).map
          (fun e => QuestionsDb.mapQuestionDoc e.1 e.2)) :=
  (listQuestions_ordering ⟨some "Physics", none, none, none, none, none⟩
      [("a", [("subject", Js.JSVal.str "Physics"), ("createdAt", Js.JSVal.time 100)]),
       ("b", [("subject", Js.JSVal.str "Physics"), ("createdAt", Js.JSVal.time 200)])]).1
    (by decide)

theorem validateMcqOptions_mcq_single_error (topts : List String)
    (copts : List Nat)
    (hcount : (NewQuestionPage.validIndices topts copts).length ≠ 1) :
    ∃ msg,
      NewQuestionPage.validateMcqOptions
        NewQuestionPage.QuestionType.mcq_single topts copts = .error msg := by
  rcases hres : NewQuestionPage.validateMcqOptions
      NewQuestionPage.QuestionType.mcq_single topts copts with msg | pair
  · exact ⟨msg, rfl⟩
  · exfalso
    unfold NewQuestionPage.validateMcqOptions at hres
    repeat' split at hres
    all_goals first
      | exact Except.noConfusion hres
      | simp_all

set_option maxHeartbeats 2000000 in
/-- C5: a single-answer MCQ has exactly one correct option — whenever the
new-question form is submitted with type `mcq_single` and the number of
valid (non-empty-option) correct indices is not exactly one, the submission
is rejected with a validation error, so no create call is made. -/
theorem mcq_single_requires_exactly_one_correct
    (f : NewQuestionPage.NewQuestionForm)
    (htype : f.type = NewQuestionPage.QuestionType.mcq_single)
    (hcount : (NewQuestionPage.validIndices (f.options.map jsTrim)
      f.correctOptions).length ≠ 1) :
    ∃ msg, NewQuestionPage.handleSubmit f = .error msg := by
  rcases hb : NewQuestionPage.validateBasics f with msg | pp
  · exact ⟨msg, by unfold NewQuestionPage.handleSubmit; rw [hb]⟩
  · obtain ⟨pm, pen⟩ := pp
    obtain ⟨msg, hm⟩ :=
      validateMcqOptions_mcq_single_error (f.options.map jsTrim) f.correctOptions hcount
    refine ⟨msg, ?_⟩
    unfold NewQuestionPage.handleSubmit
    simp only [hb, htype, hm]

/-- Witness for C5: a single-correct MCQ submission with two (valid)
correct options selected is rejected. -/
theorem mcq_single_requires_exactly_one_correct_witness :
    ∃ msg,
      NewQuestionPage.handleSubmit
        ⟨some "admin-1", .mcq_single, "phy", "Physics", "mech", "Mechanics",
          "kin", "Kinematics", "1D Motion", "", "", "<p>What is v?</p>", "",
          ["A", "B", "", ""], [0, 1], "", some 4, some 0, .easy⟩ =
        .error msg :=
  mcq_single_requires_exactly_one_correct
    ⟨some "admin-1", .mcq_single, "phy", "Physics", "mech", "Mechanics",
      "kin", "Kinematics", "1D Motion", "", "", "<p>What is v?</p>", "",
      ["A", "B", "", ""], [0, 1], "", some 4, some 0, .easy⟩
    rfl (by decide)

set_option maxHeartbeats 2000000 in
/-- C6: a numerical question is stored with a free-text correct answer and
no options — the submission is rejected when the trimmed correct answer is
empty, and a successful submission builds a `QuestionInput` whose
`correctAnswer` is the trimmed answer while `options` and `correctOptions`
are left absent (`undefined`). -/
theorem numerical_question_has_answer_and_no_options
    (f : NewQuestionPage.NewQuestionForm)
    (htype : f.type = NewQuestionPage.QuestionType.numerical) :
    (jsTrim f.correctAnswer = "" →
      ∃ msg, NewQuestionPage.handleSubmit f = .error msg) ∧
    (∀ inp, NewQuestionPage.handleSubmit f = .ok inp →
      inp.correctAnswer = some (jsTrim f.correctAnswer) ∧
      inp.options = none ∧ inp.correctOptions = none) := by
  constructor
  · intro hempty
    rcases hb : NewQuestionPage.validateBasics f with msg | pp
    · exact ⟨msg, by unfold NewQuestionPage.handleSubmit; rw [hb]⟩
    · obtain ⟨pm, pen⟩ := pp
      refine ⟨"Correct answer is required for numerical questions.", ?_⟩
      unfold NewQuestionPage.handleSubmit
      simp only [hb, htype, hempty, if_true]
  · intro inp h
    unfold NewQuestionPage.handleSubmit at h
    rcases hb : NewQuestionPage.validateBasics f with msg | pp <;> rw [hb] at h
    · simp at h
    · obtain ⟨pm, pen⟩ := pp
      simp only [htype] at h
      split at h
      · exact Except.noConfusion h
      · injection h with h2
        subst h2
        simp [NewQuestionPage.buildQuestionInput]

/-- Witness for C6: a numerical submission with answer `" 9.8 "` succeeds
and stores the trimmed answer `"9.8"` with `options` and `correctOptions`
absent. -/
theorem numerical_question_has_answer_and_no_options_witness :
    (⟨.numerical, "Physics", "Mechanics", "Kinematics", "1D Motion", none, [],
        "<p>g?</p>", none, none, some "9.8", none, 4, 0, .easy⟩ :
        NewQuestionPage.QuestionInput).correctAnswer = some (jsTrim " 9.8 ") ∧
    (⟨.numerical, "Physics", "Mechanics", "Kinematics", "1D Motion", none, [],
        "<p>g?</p>", none, none, some "9.8", none, 4, 0, .easy⟩ :
        NewQuestionPage.QuestionInput).options = none ∧
    (⟨.numerical, "Physics", "Mechanics", "Kinematics", "1D Motion", none, [],
        "<p>g?</p>", none, none, some "9.8", none, 4, 0, .easy⟩ :
        NewQuestionPage.QuestionInput).correctOptions = none :=
  (numerical_question_has_answer_and_no_options
      ⟨some "admin-1", .numerical, "phy", "Physics", "mech", "Mechanics",
        "kin", "Kinematics", "1D Motion", "", "", "<p>g?</p>", "",
        ["", "", "", ""], [], " 9.8 ", some 4, some 0, .easy⟩
      rfl).2
    ⟨.numerical, "Physics", "Mechanics", "Kinematics", "1D Motion", none, [],
      "<p>g?</p>", none, none, some "9.8", none, 4, 0, .easy⟩
    (by decide)

/-- C10: for every input string, the output of `sanitizeInput` contains no
angle-bracket character (every occurrence is removed, not just the first),
and the transformation trims surrounding whitespace before the removal. -/
theorem sanitizeInput_no_angle_brackets (s : String) :
    (∀ c ∈ (Validation.sanitizeInput s).data, c ≠ '<' ∧ c ≠ '>') ∧
      Validation.sanitizeInput s = Validation.removeAngleBrackets (jsTrim s) := by
  refine ⟨?_, rfl⟩
  intro c hc
  simp only [Validation.sanitizeInput, Validation.removeAngleBrackets,
    List.mem_filter, Bool.not_eq_true', Bool.or_eq_false_iff, beq_eq_false_iff_ne,
    ne_eq] at hc
  exact ⟨hc.2.1, hc.2.2⟩

/-- Witness for C10, at the concrete input `" <b> "` (whose sanitized form is
`"b"`) and the surviving character `'b'`. -/
theorem sanitizeInput_no_angle_brackets_witness : 'b' ≠ '<' ∧ 'b' ≠ '>' :=
  (sanitizeInput_no_angle_brackets " <b> ").1 'b' (by decide)
